import Mathlib

/-!
Verification of the audio-to-video pipeline in `scripts/app.py`.

The script has four functions: `split_audio` (silence-based segmentation),
`transcribe_chunks` (HTTP transcription of segment files), `generate_video`
(video composition from a transcript manifest) and `process_full_pipeline`
(the orchestrator).  Each is shallowly embedded here as a pure Lean function.
External effects (the file system, the HTTP endpoint, pydub and moviepy) are
modelled by explicit environment records that fix the outcome of each external
call; Python floats are modelled by exact rationals; Python exceptions are
modelled by `Except` / explicit outcome fields.
-/

namespace AyaShare

/-- `os.path.join(a, b)` for a relative second component. -/
def joinPath (a b : String) : String := a ++ "/" ++ b

/-- ASCII whitespace as stripped by Python's `str.strip()`. -/
def isPyWS (c : Char) : Bool :=
  c == ' ' || c == '\t' || c == '\n' || c == '\r' || c == '\x0b' || c == '\x0c'

/-- Python's `str.strip()`: remove leading and trailing whitespace. -/
def pyStrip (s : String) : String :=
  ⟨((s.data.dropWhile isPyWS).reverse.dropWhile isPyWS).reverse⟩

/-! ## Data model: transcript-manifest records

`generate_video` reads records from `transcriptions.json` with
`item.get("text", "")` and `item.get("duration_ms", 0)`, so both keys are
optional; a missing key is modelled by `none`. -/

/-- One record of the transcript manifest as consumed by `generate_video`.
`text = none` / `duration_ms = none` model a record lacking that JSON key. -/
structure ManifestItem where
  file : String := ""
  text : Option String := none
  duration_ms : Option ℚ := none
  error : Option String := none
deriving DecidableEq

/-! ## generate_video (app.py lines 251-407) -/

/-- The fade computation of app.py line 345:
`min(fade_duration, duration / 3) if duration > min_duration_for_fade else 0`. -/
def effectiveFade (fade_duration min_duration_for_fade duration : ℚ) : ℚ :=
  if duration > min_duration_for_fade then min fade_duration (duration / 3) else 0

/-- What the per-record loop body (lines 323-370) decides for one record:
skip it (empty stripped text, line 329; non-positive duration, line 334),
or build a clip with the given duration, fade and whether the fade effects
were attached (lines 362-366 attach them exactly when the fade is positive). -/
inductive ClipOutcome where
  | skippedEmptyText
  | skippedBadDuration
  | clip (duration fade : ℚ) (fadeApplied : Bool)
deriving DecidableEq

/-- Lines 325-345 of app.py for a single record:
`caption_text = item.get("text", "").strip()`,
`duration = item.get("duration_ms", 0) / 1000.0`, the two skip checks, and the
fade computation.  The fade effects are attached iff the fade is positive. -/
def processItem (fade_duration min_duration_for_fade : ℚ) (item : ManifestItem) :
    ClipOutcome :=
  let caption_text := pyStrip (item.text.getD "")
  let duration := (item.duration_ms.getD 0) / 1000
  if caption_text = "" then .skippedEmptyText
  else if duration ≤ 0 then .skippedBadDuration
  else
    let fade := effectiveFade fade_duration min_duration_for_fade duration
    .clip duration fade (decide (0 < fade))

/-- True iff the record was skipped rather than turned into a clip. -/
def ClipOutcome.isSkip : ClipOutcome → Bool
  | .clip _ _ _ => false
  | _ => true

/-- A built visual clip (background + caption), keeping the data the claims
talk about: its duration, the fade applied to the text overlay, and whether
fade effects were attached at all. -/
structure Clip where
  duration : ℚ
  fade : ℚ
  fadeApplied : Bool
deriving DecidableEq

/-- Environment of one `generate_video` call: which required files exist
(lines 288-295), whether moviepy raises while building the clip for the
record at a given 1-based index (the `except` at line 372 re-raises), and
whether the final concatenate/encode block (lines 384-405) raises. -/
structure GVEnv where
  transcriptionsExists : Bool := true
  bgExists : Bool := true
  fontExists : Bool := true
  audioExists : Bool := true
  buildErr : ℕ → Option String := fun _ => none
  encodeErr : Option String := none

/-- Errors `generate_video` can raise.  In the Python source `emptyInput` is
`ValueError("No transcription data found in file")` (line 316) and
`noValidClips` is `ValueError("No valid clips generated. Skipped n clips.")`
(line 377); they are distinct raise sites with distinct messages. -/
inductive GVError where
  | fileNotFound (what : String)
  | invalidArgument (what : String)
  | emptyInput
  | noValidClips (skipped : ℕ)
  | unexpected (msg : String)
deriving DecidableEq

/-- One iteration of the clip loop for the record at 1-based index `i`:
`ok none` when the record is skipped, `ok (some c)` when a clip is built,
`error` when moviepy raises and the loop re-raises (line 374). -/
def stepItem (env : GVEnv) (fade_duration min_duration_for_fade : ℚ) (i : ℕ)
    (item : ManifestItem) : Except String (Option Clip) :=
  match processItem fade_duration min_duration_for_fade item with
  | .skippedEmptyText => .ok none
  | .skippedBadDuration => .ok none
  | .clip d f ap =>
    match env.buildErr i with
    | some msg => .error msg
    | none => .ok (some ⟨d, f, ap⟩)

/-- The clip loop (lines 320-374), carrying the 1-based `enumerate` index:
returns the surviving clips in manifest order and the skipped count. -/
def buildClips (env : GVEnv) (fade_duration min_duration_for_fade : ℚ) :
    ℕ → List ManifestItem → Except String (List Clip × ℕ)
  | _, [] => .ok ([], 0)
  | i, item :: rest => do
    let c? ← stepItem env fade_duration min_duration_for_fade i item
    let (cs, sk) ← buildClips env fade_duration min_duration_for_fade (i + 1) rest
    match c? with
    | some c => return (c :: cs, sk)
    | none => return (cs, sk + 1)

/-- `generate_video` (lines 251-407), given the parsed manifest `data`:
file-existence checks, parameter validation, empty-manifest check, the clip
loop, the no-valid-clips check, and the final concatenate/encode step.  On
success it returns the surviving clips in order. -/
def generate_video (env : GVEnv) (fade_duration min_duration_for_fade : ℚ)
    (font_size fps : ℤ) (data : List ManifestItem) :
    Except GVError (List Clip) :=
  if env.transcriptionsExists = false then .error (.fileNotFound "transcriptions")
  else if env.bgExists = false then .error (.fileNotFound "background")
  else if env.fontExists = false then .error (.fileNotFound "font")
  else if env.audioExists = false then .error (.fileNotFound "audio")
  else if fade_duration < 0 then .error (.invalidArgument "fade_duration")
  else if font_size ≤ 0 then .error (.invalidArgument "font_size")
  else if fps ≤ 0 then .error (.invalidArgument "fps")
  else if data.isEmpty then .error .emptyInput
  else
    match buildClips env fade_duration min_duration_for_fade 1 data with
    | .error msg => .error (.unexpected msg)
    | .ok (clips, skipped) =>
      if clips.isEmpty then .error (.noValidClips skipped)
      else
        match env.encodeErr with
        | some msg => .error (.unexpected msg)
        | none => .ok clips

/-! ## transcribe_chunks (app.py lines 47-146) -/

/-- One TranscriptRecord: the dict appended at lines 110-114 / 119-124 /
127-132 of app.py. -/
structure TranscriptRecord where
  file : String
  text : String
  duration_ms : ℚ
  error : Option String := none
deriving DecidableEq

/-- Outcome of the `try` body (lines 88-114) for one segment file, as seen
from the `except` clauses: the request succeeded with 2xx and some response
text (`response.json().get("text", "")`), it raised `requests.Timeout`, it
raised another `requests.RequestException` (connection error or the
`raise_for_status` of a non-2xx reply), or some non-network exception was
raised (the bare `except Exception` at line 133 re-raises those). -/
inductive NetOutcome where
  | success (text : String)
  | timeout
  | requestFailed (msg : String)
  | unexpected (msg : String)
deriving DecidableEq

/-- Environment of one `transcribe_chunks` call: whether `chunks_dir` exists,
the directory listing (`os.listdir`, arbitrary order), the outcome of the
request for each file path, the duration pydub measures for each file path
(in milliseconds, `duration_seconds * 1000`), and whether the final
`json.dump` of the manifest succeeds. -/
structure TranscribeEnv where
  dirExists : Bool := true
  listing : List String := []
  net : String → NetOutcome := fun _ => .timeout
  durationOf : String → ℚ := fun _ => 0
  writeOK : Bool := true

/-- Python's `str.endswith`: the pattern is a suffix of the string. -/
def pyEndsWith (s pat : String) : Bool :=
  pat.data.isSuffixOf s.data

/-- Python's string `<`: lexicographic comparison by code point. -/
def charListLt : List Char → List Char → Bool
  | [], [] => false
  | [], _ :: _ => true
  | _ :: _, [] => false
  | a :: as, b :: bs =>
    if a.toNat < b.toNat then true
    else if b.toNat < a.toNat then false
    else charListLt as bs

/-- Strict string comparison, as Python's `<` on `str`. -/
def pyLt (a b : String) : Bool := charListLt a.data b.data

/-- Non-strict string comparison, as Python's `<=` on `str`. -/
def pyLe (a b : String) : Prop := pyLt b a = false

instance : DecidableRel pyLe :=
  fun a b => inferInstanceAs (Decidable (pyLt b a = false))

/-- Line 76 of app.py:
`sorted([f for f in os.listdir(chunks_dir) if f.endswith(".wav")])` —
lexicographic sort of the `.wav` entries. -/
def wavFiles (listing : List String) : List String :=
  List.insertionSort pyLe (listing.filter (fun f => pyEndsWith f ".wav"))

/-- True iff the outcome is a non-network failure (re-raised at line 135). -/
def NetOutcome.isUnexpected : NetOutcome → Bool
  | .unexpected _ => true
  | _ => false

/-- The record produced for one file when its outcome is not a non-network
failure (the three `data.append` sites of app.py). -/
def transcriptFor (env : TranscribeEnv) (chunks_dir f : String) : TranscriptRecord :=
  let path := joinPath chunks_dir f
  match env.net path with
  | .success t => { file := path, text := t, duration_ms := env.durationOf path }
  | .timeout =>
    { file := path, text := "", duration_ms := env.durationOf path, error := some "timeout" }
  | .requestFailed m =>
    { file := path, text := "", duration_ms := env.durationOf path, error := some m }
  | .unexpected m =>
    { file := path, text := "", duration_ms := env.durationOf path, error := some m }

/-- One iteration of the loop at lines 85-135: a record is appended on
success, timeout and request failure; any other failure re-raises. -/
def transcribeOne (env : TranscribeEnv) (chunks_dir f : String) :
    Except String TranscriptRecord :=
  let path := joinPath chunks_dir f
  match env.net path with
  | .unexpected m => .error m
  | _ => .ok (transcriptFor env chunks_dir f)

/-- The whole loop at lines 85-135 over the sorted file list, in order,
stopping at the first re-raised non-network failure. -/
def transcribeAll (env : TranscribeEnv) (chunks_dir : String) :
    List String → Except String (List TranscriptRecord)
  | [] => .ok []
  | f :: fs => do
    let r ← transcribeOne env chunks_dir f
    let rs ← transcribeAll env chunks_dir fs
    return r :: rs

/-- Errors `transcribe_chunks` raises: `FileNotFoundError` for a missing
directory (line 71), a re-raised non-network failure (line 135), or the
re-raised `IOError` of the manifest write (line 144). -/
inductive TranscribeError where
  | dirNotFound (msg : String)
  | unexpected (msg : String)
  | writeFailed
deriving DecidableEq

/-- Observable outcome of one `transcribe_chunks` call: the returned list or
the raised error, and the manifest content written to `output_json`
(`none` when nothing was written). -/
structure TranscribeOutcome where
  result : Except TranscribeError (List TranscriptRecord)
  manifest : Option (List TranscriptRecord)

/-- `transcribe_chunks` (lines 47-146): directory check, sorted `.wav`
enumeration, early return on an empty file list (no manifest written), the
per-file loop, and the manifest write after the loop completes. -/
def transcribe_chunks (env : TranscribeEnv) (chunks_dir output_json : String) :
    TranscribeOutcome :=
  if env.dirExists = false then ⟨.error (.dirNotFound chunks_dir), none⟩
  else
    let wavs := wavFiles env.listing
    if wavs.isEmpty then ⟨.ok [], none⟩
    else
      match transcribeAll env chunks_dir wavs with
      | .error m => ⟨.error (.unexpected m), none⟩
      | .ok data =>
        if env.writeOK then ⟨.ok data, some data⟩
        else ⟨.error .writeFailed, none⟩

/-! ## split_audio (app.py lines 149-245) -/

/-- One SegmentRecord: the dict appended at lines 222-225 of app.py
(`len(chunk)` is an integer number of milliseconds). -/
structure SegmentRecord where
  file : String
  duration_ms : ℕ
deriving DecidableEq

/-- Environment of one `split_audio` call: whether the input audio exists,
whether `AudioSegment.from_file` and `split_on_silence` raise, the durations
(ms) of the chunks pydub detects, whether exporting the chunk at a given
index raises, and whether the metadata `json.dump` succeeds. -/
structure SplitEnv where
  audioExists : Bool := true
  loadErr : Option String := none
  splitErr : Option String := none
  chunks : List ℕ := []
  exportErr : ℕ → Option String := fun _ => none
  writeOK : Bool := true

/-- Errors `split_audio` raises. -/
inductive SplitError where
  | fileNotFound (msg : String)
  | invalidArgument (msg : String)
  | loadFailed (msg : String)
  | splitFailed (msg : String)
  | exportFailed (msg : String)
  | writeFailed
deriving DecidableEq

/-- Observable outcome of one `split_audio` call: the returned metadata or
the raised error, the segment files successfully exported (in order), and
the manifest written to `chunks.json` (`none` when nothing was written). -/
structure SplitOutcome where
  result : Except SplitError (List SegmentRecord)
  exported : List String
  manifest : Option (List SegmentRecord)

/-- The export loop at lines 216-231, starting at chunk index `i`: returns
the exported file paths, the accumulated metadata, and the message of the
first failed export, if any (a failed export re-raises at line 231; the
files exported before it remain on disk). -/
def exportChunks (env : SplitEnv) (output_dir : String) :
    ℕ → List ℕ → List String × List SegmentRecord × Option String
  | _, [] => ([], [], none)
  | i, c :: cs =>
    match env.exportErr i with
    | some msg => ([], [], some msg)
    | none =>
      let path := joinPath output_dir ("chunk_" ++ toString i ++ ".wav")
      let (fs, ms, e) := exportChunks env output_dir (i + 1) cs
      (path :: fs, ⟨path, c⟩ :: ms, e)

/-- The metadata `split_audio` builds for chunk durations `cs` starting at
index `i`: one record per chunk, named `chunk_<index>.wav`, in detection
order. -/
def chunkRecords (output_dir : String) : ℕ → List ℕ → List SegmentRecord
  | _, [] => []
  | i, c :: cs =>
    ⟨joinPath output_dir ("chunk_" ++ toString i ++ ".wav"), c⟩ :: chunkRecords output_dir (i + 1) cs

/-- `split_audio` (lines 149-245): input validation, load, silence split,
early return on zero chunks (no files written), the export loop, and the
manifest write. -/
def split_audio (env : SplitEnv) (audio_path output_dir : String)
    (min_silence_len silence_thresh_offset keep_silence : ℤ) : SplitOutcome :=
  if env.audioExists = false then ⟨.error (.fileNotFound audio_path), [], none⟩
  else if min_silence_len ≤ 0 ∨ silence_thresh_offset ≤ 0 ∨ keep_silence < 0 then
    ⟨.error (.invalidArgument "Silence parameters must be positive values"), [], none⟩
  else
    match env.loadErr with
    | some m => ⟨.error (.loadFailed m), [], none⟩
    | none =>
      match env.splitErr with
      | some m => ⟨.error (.splitFailed m), [], none⟩
      | none =>
        if env.chunks.isEmpty then ⟨.ok [], [], none⟩
        else
          match exportChunks env output_dir 0 env.chunks with
          | (files, _, some msg) => ⟨.error (.exportFailed msg), files, none⟩
          | (files, metadata, none) =>
            if env.writeOK then ⟨.ok metadata, files, some metadata⟩
            else ⟨.error .writeFailed, files, none⟩

/-- Total number of files a `split_audio` call has written: the exported
segment files plus the manifest, when one was written. -/
def SplitOutcome.filesWritten (o : SplitOutcome) : ℕ :=
  o.exported.length + (if o.manifest.isSome then 1 else 0)

/-! ## process_full_pipeline (app.py lines 410-483) -/

/-- Outcomes of the three stage calls as the orchestrator sees them: each
stage either returns its value or raises with a message. -/
structure StageEnv where
  splitResult : Except String (List SegmentRecord) := .ok []
  transcribeResult : Except String (List TranscriptRecord) := .ok []
  videoResult : Except String String := .ok ""

/-- The `results` dict of `process_full_pipeline`: fields are `none` until
the corresponding stage has set them. -/
structure PipelineResults where
  status : String
  audio_path : String
  chunks_count : Option ℕ := none
  chunks_dir : Option String := none
  transcriptions_count : Option ℕ := none
  video_path : Option String := none
  error : Option String := none
deriving DecidableEq

/-- Observable outcome of one `process_full_pipeline` call: the final
`results` dict, and the message of the re-raised exception when one of the
stages failed (`none` on success). -/
structure PipelineOutcome where
  results : PipelineResults
  raised : Option String
deriving DecidableEq

/-- `process_full_pipeline` (lines 410-483): runs split, then transcription
when `api_url` is provided (else records `transcriptions_count = 0`), then
video generation; the `except` block at lines 477-481 sets
`status = "failed"`, records the message in `error` and re-raises. -/
def process_full_pipeline (env : StageEnv) (audio_path output_dir : String)
    (api_url : Option String) : PipelineOutcome :=
  let r0 : PipelineResults := { status := "started", audio_path := audio_path }
  match env.splitResult with
  | .error e => ⟨{ r0 with status := "failed", error := some e }, some e⟩
  | .ok chunks =>
    let r1 := { r0 with chunks_count := some chunks.length, chunks_dir := some output_dir }
    match api_url with
    | some _ =>
      match env.transcribeResult with
      | .error e => ⟨{ r1 with status := "failed", error := some e }, some e⟩
      | .ok ts =>
        let r2 := { r1 with transcriptions_count := some ts.length }
        match env.videoResult with
        | .error e => ⟨{ r2 with status := "failed", error := some e }, some e⟩
        | .ok vp => ⟨{ r2 with video_path := some vp, status := "success" }, none⟩
    | none =>
      let r2 := { r1 with transcriptions_count := some 0 }
      match env.videoResult with
      | .error e => ⟨{ r2 with status := "failed", error := some e }, some e⟩
      | .ok vp => ⟨{ r2 with video_path := some vp, status := "success" }, none⟩

/-! ## Concrete environments used by the witnesses -/

/-- Two segment files, every request succeeds. -/
def envAllSuccess : TranscribeEnv :=
  { listing := ["b.wav", "a.wav"], net := fun _ => .success "hi",
    durationOf := fun _ => 1000 }

/-- One segment file whose request times out. -/
def envOneTimeout : TranscribeEnv :=
  { listing := ["a.wav"], net := fun _ => .timeout, durationOf := fun _ => 500 }

/-- One segment file whose request succeeds. -/
def envOneSuccess : TranscribeEnv :=
  { listing := ["a.wav"], net := fun _ => .success "t", durationOf := fun _ => 100 }

/-- One segment file whose processing hits a non-network failure. -/
def envOneUnexpected : TranscribeEnv :=
  { listing := ["a.wav"], net := fun _ => .unexpected "boom" }

/-- The listing of a directory holding eleven exported segments. -/
def elevenChunks : List String :=
  ["chunk_0.wav", "chunk_1.wav", "chunk_2.wav", "chunk_3.wav", "chunk_4.wav",
   "chunk_5.wav", "chunk_6.wav", "chunk_7.wav", "chunk_8.wav", "chunk_9.wav",
   "chunk_10.wav"]

/-- Two detected chunks of 1200 ms and 800 ms, all external calls succeed. -/
def envTwoChunks : SplitEnv := { chunks := [1200, 800] }

/-- Stage outcomes where the segmentation stage raises. -/
def stagesSplitFail : StageEnv := { splitResult := .error "no audio" }

/-- Stage outcomes where all three stages succeed. -/
def stagesAllOk : StageEnv :=
  { splitResult := .ok [{ file := "c0", duration_ms := 100 }],
    transcribeResult := .ok [{ file := "c0", text := "x", duration_ms := 100 }],
    videoResult := .ok "v.mp4" }

/-! ## Helper lemmas -/


theorem charListLt_irrefl : ∀ l : List Char, charListLt l l = false
  | [] => rfl
  | a :: as => by simp [charListLt, charListLt_irrefl as]

theorem charListLt_asymm : ∀ {l₁ l₂ : List Char},
    charListLt l₁ l₂ = true → charListLt l₂ l₁ = false
  | [], [], h => by simp [charListLt] at h
  | [], _ :: _, _ => by simp [charListLt]
  | _ :: _, [], h => by simp [charListLt] at h
  | a :: as, b :: bs, h => by
    simp only [charListLt] at h ⊢
    by_cases hab : a.toNat < b.toNat
    · have hba : ¬ b.toNat < a.toNat := by omega
      simp [hab, hba]
    · by_cases hba : b.toNat < a.toNat
      · simp [hab, hba] at h
      · simp only [hab, hba, if_false] at h ⊢
        exact charListLt_asymm h

theorem charListLt_eq_of_not : ∀ {l₁ l₂ : List Char},
    charListLt l₁ l₂ = false → charListLt l₂ l₁ = false → l₁ = l₂
  | [], [], _, _ => rfl
  | [], _ :: _, h, _ => by simp [charListLt] at h
  | _ :: _, [], _, h => by simp [charListLt] at h
  | a :: as, b :: bs, h1, h2 => by
    by_cases hab : a.toNat < b.toNat
    · simp [charListLt, hab] at h1
    · by_cases hba : b.toNat < a.toNat
      · simp [charListLt, hba] at h2
      · have hcc : a = b := by
          have hn : a.toNat = b.toNat := by omega
          have hv : a.val = b.val := by
            apply UInt32.ext
            exact hn
          exact Char.eq_of_val_eq hv
        have h1' : charListLt as bs = false := by simpa [charListLt, hab, hba] using h1
        have h2' : charListLt bs as = false := by simpa [charListLt, hab, hba] using h2
        rw [hcc, charListLt_eq_of_not h1' h2']

theorem charListLt_trans : ∀ {l₁ l₂ l₃ : List Char},
    charListLt l₁ l₂ = true → charListLt l₂ l₃ = true → charListLt l₁ l₃ = true
  | [], [], _, h1, _ => by simp [charListLt] at h1
  | [], _ :: _, [], _, h2 => by simp [charListLt] at h2
  | [], _ :: _, _ :: _, _, _ => by simp [charListLt]
  | _ :: _, [], _, h1, _ => by simp [charListLt] at h1
  | _ :: _, _ :: _, [], _, h2 => by simp [charListLt] at h2
  | a :: as, b :: bs, c :: cs, h1, h2 => by
    simp only [charListLt] at h1 h2 ⊢
    by_cases hab : a.toNat < b.toNat <;> by_cases hbc : b.toNat < c.toNat
    · have hac : a.toNat < c.toNat := by omega
      simp [hac]
    · by_cases hcb : c.toNat < b.toNat
      · simp [hab, hbc, hcb] at h2
      · have hbc' : b.toNat = c.toNat := by omega
        have hac : a.toNat < c.toNat := by omega
        simp [hac]
    · by_cases hba : b.toNat < a.toNat
      · simp [hab, hba] at h1
      · have hab' : a.toNat = b.toNat := by omega
        have hac : a.toNat < c.toNat := by omega
        simp [hac]
    · by_cases hba : b.toNat < a.toNat
      · simp [hab, hba] at h1
      · by_cases hcb : c.toNat < b.toNat
        · simp [hbc, hcb] at h2
        · have hab' : a.toNat = b.toNat := by omega
          have hbc' : b.toNat = c.toNat := by omega
          have hac : ¬ a.toNat < c.toNat := by omega
          have hca : ¬ c.toNat < a.toNat := by omega
          simp only [hab, hba, if_false] at h1
          simp only [hbc, hcb, if_false] at h2
          simp [hac, hca, charListLt_trans h1 h2]

instance : IsTotal String pyLe := by
  constructor
  intro a b
  by_cases h : charListLt b.data a.data = true
  · exact Or.inr (by simpa [pyLe, pyLt] using charListLt_asymm h)
  · exact Or.inl (by simpa [pyLe, pyLt] using h)

instance : IsTrans String pyLe := by
  constructor
  intro a b c hab hbc
  simp only [pyLe, pyLt] at hab hbc ⊢
  by_cases hca : charListLt c.data a.data = true
  · by_cases hcb : charListLt c.data b.data = true
    · exact absurd hcb (by simpa using hbc)
    · by_cases hbc' : charListLt b.data c.data = true
      · have := charListLt_trans hbc' hca
        exact absurd this (by simpa using hab)
      · have : b.data = c.data := charListLt_eq_of_not (by simpa using hbc') (by simpa using hcb)
        rw [← this] at hca
        exact absurd hca (by simpa using hab)
  · simpa using hca

theorem sorted_indexOf_lt : ∀ {l : List String}, List.Pairwise pyLe l →
    ∀ {a b : String}, a ∈ l → b ∈ l → pyLt a b = true →
    l.indexOf a < l.indexOf b
  | [], _, _, _, ha, _, _ => by simp at ha
  | h :: t, hs, a, b, ha, hb, hab => by
    have hne : a ≠ b := by
      intro he
      rw [he] at hab
      simp [pyLt, charListLt_irrefl] at hab
    rcases List.pairwise_cons.mp hs with ⟨hhead, htail⟩
    by_cases hha : h = a
    · have hnb : h ≠ b := by rw [hha]; exact hne
      rw [List.indexOf_cons_eq t hha, List.indexOf_cons_ne t hnb]
      exact Nat.succ_pos _
    · have ha' : a ∈ t := by
        rcases List.mem_cons.mp ha with h1 | h1
        · exact absurd h1.symm hha
        · exact h1
      have hnb : h ≠ b := by
        intro he
        have hle := hhead a ha'
        rw [he] at hle
        simp only [pyLe] at hle
        exact absurd hab (by simp [hle])
      have hb' : b ∈ t := by
        rcases List.mem_cons.mp hb with h1 | h1
        · exact absurd h1.symm hnb
        · exact h1
      rw [List.indexOf_cons_ne t hha, List.indexOf_cons_ne t hnb]
      exact Nat.succ_lt_succ (sorted_indexOf_lt htail ha' hb' hab)

/-- A record with non-empty stripped text and positive duration_ms becomes a
clip with duration `ms / 1000`, the computed fade, and the fade attached iff
the fade is positive. -/
theorem processItem_clip (fd md : ℚ) (item : ManifestItem) (t : String) (ms : ℚ)
    (htext : item.text = some t) (hts : pyStrip t ≠ "")
    (hms : item.duration_ms = some ms) (hpos : 0 < ms) :
    processItem fd md item =
      .clip (ms / 1000) (effectiveFade fd md (ms / 1000))
        (decide (0 < effectiveFade fd md (ms / 1000))) := by
  have hd : (0 : ℚ) < ms / 1000 := by positivity
  simp [processItem, htext, hms, hts, not_le.mpr hd]

/-- The loop body never raises on a record it skips. -/
theorem stepItem_of_isSkip (env : GVEnv) (fd md : ℚ) (i : ℕ) (item : ManifestItem)
    (h : (processItem fd md item).isSkip = true) :
    stepItem env fd md i item = .ok none := by
  unfold stepItem
  cases hp : processItem fd md item <;> simp_all [ClipOutcome.isSkip]

/-- A record is skipped exactly when its stripped text is empty or its
duration is non-positive. -/
theorem processItem_isSkip_iff (fd md : ℚ) (item : ManifestItem) :
    (processItem fd md item).isSkip = true ↔
      pyStrip (item.text.getD "") = "" ∨ item.duration_ms.getD 0 ≤ 0 := by
  have hdiv : (item.duration_ms.getD 0 / 1000 ≤ (0 : ℚ)) ↔ item.duration_ms.getD 0 ≤ 0 := by
    rw [div_nonpos_iff]
    constructor
    · rintro (⟨_, hb⟩ | ⟨ha, _⟩)
      · linarith
      · exact ha
    · intro h
      exact Or.inr ⟨h, by norm_num⟩
  unfold processItem
  by_cases h1 : pyStrip (item.text.getD "") = ""
  · simp [h1, ClipOutcome.isSkip]
  · by_cases h2 : item.duration_ms.getD 0 / 1000 ≤ 0
    · simp [h1, h2, ClipOutcome.isSkip, hdiv.mp h2]
    · simp [h1, h2, ClipOutcome.isSkip]
      exact not_le.mp (fun hc => h2 (hdiv.mpr hc))

/-- When every record of the list is skipped, the clip loop returns no clips
and counts them all as skipped. -/
theorem buildClips_all_skipped (env : GVEnv) (fd md : ℚ) :
    ∀ (l : List ManifestItem) (i : ℕ),
      (∀ item ∈ l, (processItem fd md item).isSkip = true) →
      buildClips env fd md i l = .ok ([], l.length)
  | [], _, _ => rfl
  | item :: rest, i, h => by
    have hh := h item (List.mem_cons_self item rest)
    have ih := buildClips_all_skipped env fd md rest (i + 1)
      (fun x hx => h x (List.mem_cons_of_mem item hx))
    simp [buildClips, stepItem_of_isSkip env fd md i item hh, ih, Bind.bind, Except.bind,
      Pure.pure, Except.pure]

/-- A file whose request outcome is not a non-network failure yields its
record. -/
theorem transcribeOne_ok (env : TranscribeEnv) (chunks_dir f : String)
    (h : (env.net (joinPath chunks_dir f)).isUnexpected = false) :
    transcribeOne env chunks_dir f = .ok (transcriptFor env chunks_dir f) := by
  unfold transcribeOne
  cases hn : env.net (joinPath chunks_dir f) <;> simp_all [NetOutcome.isUnexpected]

/-- When no file hits a non-network failure, the loop yields one record per
file, in order. -/
theorem transcribeAll_ok (env : TranscribeEnv) (chunks_dir : String) :
    ∀ l : List String,
      (∀ f ∈ l, (env.net (joinPath chunks_dir f)).isUnexpected = false) →
      transcribeAll env chunks_dir l = .ok (l.map (transcriptFor env chunks_dir))
  | [], _ => rfl
  | f :: fs, h => by
    have h1 := transcribeOne_ok env chunks_dir f (h f (List.mem_cons_self f fs))
    have ih := transcribeAll_ok env chunks_dir fs
      (fun x hx => h x (List.mem_cons_of_mem f hx))
    simp [transcribeAll, h1, ih, Bind.bind, Except.bind, Pure.pure, Except.pure]

/-- Either every file's outcome is a network-level one, or the loop raises. -/
theorem transcribeAll_clean_or_error (env : TranscribeEnv) (chunks_dir : String) :
    ∀ l : List String,
      (∀ f ∈ l, (env.net (joinPath chunks_dir f)).isUnexpected = false) ∨
      (∃ m, transcribeAll env chunks_dir l = .error m)
  | [] => Or.inl (by simp)
  | f :: fs => by
    cases hn : env.net (joinPath chunks_dir f) with
    | unexpected m =>
      refine Or.inr ⟨m, ?_⟩
      have h1 : transcribeOne env chunks_dir f = .error m := by
        unfold transcribeOne
        simp [hn]
      simp [transcribeAll, h1, Bind.bind, Except.bind]
    | _ =>
      rcases transcribeAll_clean_or_error env chunks_dir fs with hc | ⟨m, hm⟩
      · refine Or.inl ?_
        intro g hg
        rcases List.mem_cons.mp hg with h1 | h1
        · rw [h1, hn]
          rfl
        · exact hc g h1
      · refine Or.inr ⟨m, ?_⟩
        have h1 : transcribeOne env chunks_dir f = .ok (transcriptFor env chunks_dir f) :=
          transcribeOne_ok env chunks_dir f (by rw [hn]; rfl)
        simp [transcribeAll, h1, hm, Bind.bind, Except.bind]

/-- Converse of `transcribeAll_ok`: a completed loop means no non-network
failure occurred and the result is the full ordered record list. -/
theorem transcribeAll_ok_inv (env : TranscribeEnv) (chunks_dir : String)
    (l : List String) (rs : List TranscriptRecord)
    (h : transcribeAll env chunks_dir l = .ok rs) :
    rs = l.map (transcriptFor env chunks_dir) ∧
    ∀ f ∈ l, (env.net (joinPath chunks_dir f)).isUnexpected = false := by
  rcases transcribeAll_clean_or_error env chunks_dir l with hc | ⟨m, hm⟩
  · have := transcribeAll_ok env chunks_dir l hc
    rw [this] at h
    exact ⟨(Except.ok.inj h).symm, hc⟩
  · rw [hm] at h
    cases h

/-- A non-network failure somewhere in the list makes the loop raise. -/
theorem transcribeAll_error_of_unexpected (env : TranscribeEnv) (chunks_dir : String)
    (l : List String)
    (hex : ∃ f ∈ l, (env.net (joinPath chunks_dir f)).isUnexpected = true) :
    ∃ m, transcribeAll env chunks_dir l = .error m := by
  cases h : transcribeAll env chunks_dir l with
  | error m => exact ⟨m, rfl⟩
  | ok rs =>
    obtain ⟨f, hf, hu⟩ := hex
    have hc := (transcribeAll_ok_inv env chunks_dir l rs h).2 f hf
    simp [hc] at hu

/-! ## Claims -/

/-- C1: for every transcript record that produces a clip (non-empty stripped
text, duration_ms > 0, duration = duration_ms / 1000), the applied fade is
`min(fade_duration, duration / 3)` when `duration > min_duration_for_fade`
and `0` otherwise, and when it is `0` no fade effect is attached. -/
theorem generate_video_fade_policy (fd md : ℚ) (item : ManifestItem) (t : String) (ms : ℚ)
    (htext : item.text = some t) (hts : pyStrip t ≠ "")
    (hms : item.duration_ms = some ms) (hpos : 0 < ms) :
    processItem fd md item =
      .clip (ms / 1000) (effectiveFade fd md (ms / 1000))
        (decide (0 < effectiveFade fd md (ms / 1000))) ∧
    effectiveFade fd md (ms / 1000) =
      (if ms / 1000 > md then min fd (ms / 1000 / 3) else 0) ∧
    (effectiveFade fd md (ms / 1000) = 0 →
      decide (0 < effectiveFade fd md (ms / 1000)) = false) :=
  ⟨processItem_clip fd md item t ms htext hts hms hpos, rfl, fun h => by simp [h]⟩

/-- Witness for C1 at fade_duration = 0.8, min_duration_for_fade = 1 and a
record with text "salam" and duration_ms = 1500. -/
theorem generate_video_fade_policy_witness :
    ({ file := "chunk_0.wav", text := some "salam", duration_ms := some 1500 } :
        ManifestItem).text = some "salam" ∧
    pyStrip "salam" ≠ "" ∧
    ({ file := "chunk_0.wav", text := some "salam", duration_ms := some 1500 } :
        ManifestItem).duration_ms = some 1500 ∧
    (0 : ℚ) < 1500 ∧
    (processItem 0.8 1 { file := "chunk_0.wav", text := some "salam", duration_ms := some 1500 } =
      .clip (1500 / 1000) (effectiveFade 0.8 1 (1500 / 1000))
        (decide (0 < effectiveFade 0.8 1 (1500 / 1000))) ∧
    effectiveFade 0.8 1 (1500 / 1000) =
      (if (1500 : ℚ) / 1000 > 1 then min 0.8 (1500 / 1000 / 3) else 0) ∧
    (effectiveFade 0.8 1 (1500 / 1000) = 0 →
      decide ((0 : ℚ) < effectiveFade 0.8 1 (1500 / 1000)) = false)) :=
  ⟨rfl, by decide, rfl, by norm_num,
    generate_video_fade_policy 0.8 1 _ "salam" 1500 rfl (by decide) rfl (by norm_num)⟩

/-- C2 (counterexample): with fade_duration = 0.8 and min_duration_for_fade
= 1, the record with duration_ms = 1500 gets an effective fade of 0.5, not
0.8 (min(0.8, 1.5/3) = 0.5), and the record with duration_ms = 900 gets 0,
not 0.3 (0.9 is not greater than min_duration_for_fade). -/
theorem fade_values_spec_counterexample :
    processItem 0.8 1 { file := "chunk_0.wav", text := some "text", duration_ms := some 1500 } =
      .clip (3 / 2) (1 / 2) true ∧
    ¬ ((1 / 2 : ℚ) = 0.8) ∧
    processItem 0.8 1 { file := "chunk_1.wav", text := some "text", duration_ms := some 900 } =
      .clip (9 / 10) 0 false ∧
    ¬ ((0 : ℚ) = 0.3) := by
  refine ⟨?_, by norm_num, ?_, by norm_num⟩ <;>
    · simp [processItem, pyStrip, isPyWS, effectiveFade, min_def]
      norm_num

/-- C2 (amended): with fade_duration = 0.8 and min_duration_for_fade = 1,
the record with duration_ms = 1500 gets an effective fade of 0.5 seconds
(capped at duration / 3), and the records with duration_ms = 900 and 500
get 0 (at or under the minimum duration, so no fade is attached). -/
theorem fade_values_concrete :
    processItem 0.8 1 { file := "chunk_0.wav", text := some "text", duration_ms := some 1500 } =
      .clip (3 / 2) (1 / 2) true ∧
    processItem 0.8 1 { file := "chunk_1.wav", text := some "text", duration_ms := some 900 } =
      .clip (9 / 10) 0 false ∧
    processItem 0.8 1 { file := "chunk_2.wav", text := some "text", duration_ms := some 500 } =
      .clip (1 / 2) 0 false := by
  refine ⟨?_, ?_, ?_⟩ <;>
    · simp [processItem, pyStrip, isPyWS, effectiveFade, min_def]
      norm_num

/-- C7: a record with empty or whitespace-only text, or with non-positive
duration_ms, is skipped without aborting; when the manifest is non-empty
and every record is skipped, `generate_video` fails with the no-valid-clips
error, which is distinct from the empty-manifest error. -/
theorem generate_video_skip_and_noValidClips (env : GVEnv) (fd md : ℚ) (fs fps : ℤ)
    (data : List ManifestItem)
    (h1 : env.transcriptionsExists = true) (h2 : env.bgExists = true)
    (h3 : env.fontExists = true) (h4 : env.audioExists = true)
    (h5 : 0 ≤ fd) (h6 : 0 < fs) (h7 : 0 < fps) :
    (∀ item : ManifestItem,
      pyStrip (item.text.getD "") = "" ∨ item.duration_ms.getD 0 ≤ 0 →
      (processItem fd md item).isSkip = true ∧
      ∀ i, stepItem env fd md i item = .ok none) ∧
    (data ≠ [] → (∀ item ∈ data, (processItem fd md item).isSkip = true) →
      generate_video env fd md fs fps data = .error (.noValidClips data.length)) ∧
    GVError.noValidClips data.length ≠ GVError.emptyInput := by
  refine ⟨fun item h => ?_, fun hne hskip => ?_, by intro h; cases h⟩
  · have hs : (processItem fd md item).isSkip = true :=
      (processItem_isSkip_iff fd md item).mpr h
    exact ⟨hs, fun i => stepItem_of_isSkip env fd md i item hs⟩
  · have hb := buildClips_all_skipped env fd md data 1 hskip
    simp [generate_video, h1, h2, h3, h4, not_lt.mpr h5, not_le.mpr h6, not_le.mpr h7,
      List.isEmpty_iff, hne, hb]

/-- Witness for C7 at the default parameters and a one-record manifest whose
single record has empty text. -/
theorem generate_video_skip_and_noValidClips_witness :
    ({} : GVEnv).transcriptionsExists = true ∧ ({} : GVEnv).bgExists = true ∧
    ({} : GVEnv).fontExists = true ∧ ({} : GVEnv).audioExists = true ∧
    (0 : ℚ) ≤ 0.8 ∧ (0 : ℤ) < 60 ∧ (0 : ℤ) < 24 ∧
    ((∀ item : ManifestItem,
      pyStrip (item.text.getD "") = "" ∨ item.duration_ms.getD 0 ≤ 0 →
      (processItem 0.8 1 item).isSkip = true ∧
      ∀ i, stepItem {} 0.8 1 i item = .ok none) ∧
    (([{ file := "chunk_0.wav", text := some "", duration_ms := some 1000 }] :
        List ManifestItem) ≠ [] →
      (∀ item ∈ ([{ file := "chunk_0.wav", text := some "", duration_ms := some 1000 }] :
        List ManifestItem), (processItem 0.8 1 item).isSkip = true) →
      generate_video {} 0.8 1 60 24
          [{ file := "chunk_0.wav", text := some "", duration_ms := some 1000 }] =
        .error (.noValidClips 1)) ∧
    GVError.noValidClips
        ([{ file := "chunk_0.wav", text := some "", duration_ms := some 1000 }] :
          List ManifestItem).length ≠ GVError.emptyInput) :=
  ⟨rfl, rfl, rfl, rfl, by norm_num, by norm_num, by norm_num,
    generate_video_skip_and_noValidClips {} 0.8 1 60 24
      [{ file := "chunk_0.wav", text := some "", duration_ms := some 1000 }]
      rfl rfl rfl rfl (by norm_num) (by norm_num) (by norm_num)⟩

/-- C10: a manifest record lacking the text key or the duration_ms key does
not raise: a missing text key behaves exactly like an empty text and makes
the record skipped; a missing duration_ms key behaves exactly like a zero
duration; in either case the record is skipped and the loop body returns
without error. -/
theorem missing_manifest_keys_skip (fd md : ℚ) (item : ManifestItem) :
    (item.text = none →
      processItem fd md item = processItem fd md { item with text := some "" } ∧
      processItem fd md item = .skippedEmptyText) ∧
    (item.duration_ms = none →
      processItem fd md item = processItem fd md { item with duration_ms := some 0 }) ∧
    (item.text = none ∨ item.duration_ms = none →
      (processItem fd md item).isSkip = true ∧
      ∀ env i, stepItem env fd md i item = .ok none) := by
  refine ⟨fun ht => ?_, fun hd => ?_, fun h => ?_⟩
  · constructor <;> simp [processItem, ht, pyStrip]
  · simp [processItem, hd]
  · have hs : (processItem fd md item).isSkip = true := by
      rcases h with ht | hd
      · exact (processItem_isSkip_iff fd md item).mpr (Or.inl (by simp [ht, pyStrip]))
      · exact (processItem_isSkip_iff fd md item).mpr (Or.inr (by simp [hd]))
    exact ⟨hs, fun env i => stepItem_of_isSkip env fd md i item hs⟩

/-- Witness for C10 at a record with no text key and a record with no
duration_ms key. -/
theorem missing_manifest_keys_skip_witness :
    ({ file := "chunk_0.wav", duration_ms := some 1000 } : ManifestItem).text = none ∧
    ({ file := "chunk_1.wav", text := some "text" } : ManifestItem).duration_ms = none ∧
    processItem 0.8 1 { file := "chunk_0.wav", duration_ms := some 1000 } =
      .skippedEmptyText ∧
    processItem 0.8 1 { file := "chunk_1.wav", text := some "text" } =
      processItem 0.8 1 { file := "chunk_1.wav", text := some "text", duration_ms := some 0 } ∧
    (processItem 0.8 1 { file := "chunk_1.wav", text := some "text" }).isSkip = true :=
  ⟨rfl, rfl,
    ((missing_manifest_keys_skip 0.8 1 { file := "chunk_0.wav", duration_ms := some 1000 }).1 rfl).2,
    (missing_manifest_keys_skip 0.8 1 { file := "chunk_1.wav", text := some "text" }).2.1 rfl,
    ((missing_manifest_keys_skip 0.8 1 { file := "chunk_1.wav", text := some "text" }).2.2
      (Or.inr rfl)).1⟩

/-- C3: on an existing directory where every per-file failure is a network
failure, `transcribe_chunks` returns exactly one record per `.wav` file of
the directory, in enumeration (sorted) order, and persists the same list as
the manifest whenever there is at least one file. -/
theorem transcribe_chunks_one_record_per_wav (env : TranscribeEnv)
    (chunks_dir output_json : String)
    (hdir : env.dirExists = true) (hw : env.writeOK = true)
    (hnet : ∀ f ∈ wavFiles env.listing,
      (env.net (joinPath chunks_dir f)).isUnexpected = false) :
    (transcribe_chunks env chunks_dir output_json).result =
      .ok ((wavFiles env.listing).map (transcriptFor env chunks_dir)) ∧
    ((wavFiles env.listing).map (transcriptFor env chunks_dir)).length =
      (env.listing.filter (fun f => pyEndsWith f ".wav")).length ∧
    (wavFiles env.listing ≠ [] →
      (transcribe_chunks env chunks_dir output_json).manifest =
        some ((wavFiles env.listing).map (transcriptFor env chunks_dir))) := by
  have hok := transcribeAll_ok env chunks_dir (wavFiles env.listing) hnet
  have hlen : ((wavFiles env.listing).map (transcriptFor env chunks_dir)).length =
      (env.listing.filter (fun f => pyEndsWith f ".wav")).length := by
    rw [List.length_map]
    exact (List.perm_insertionSort pyLe _).length_eq
  by_cases hemp : wavFiles env.listing = []
  · refine ⟨?_, hlen, fun hne => absurd hemp hne⟩
    simp [transcribe_chunks, hdir, hemp]
  · have hemp' : (wavFiles env.listing).isEmpty = false := by
      simp [List.isEmpty_iff, hemp]
    refine ⟨?_, hlen, fun _ => ?_⟩ <;>
      simp [transcribe_chunks, hdir, hemp', hok, hw]

/-- Witness for C3: two files, both requests succeed. -/
theorem transcribe_chunks_one_record_per_wav_witness :
    envAllSuccess.dirExists = true ∧
    envAllSuccess.writeOK = true ∧
    (∀ f ∈ wavFiles envAllSuccess.listing,
      (envAllSuccess.net (joinPath "d" f)).isUnexpected = false) ∧
    ((transcribe_chunks envAllSuccess "d" "o.json").result =
      .ok ((wavFiles envAllSuccess.listing).map (transcriptFor envAllSuccess "d")) ∧
    ((wavFiles envAllSuccess.listing).map (transcriptFor envAllSuccess "d")).length =
      (envAllSuccess.listing.filter (fun f => pyEndsWith f ".wav")).length ∧
    (wavFiles envAllSuccess.listing ≠ [] →
      (transcribe_chunks envAllSuccess "d" "o.json").manifest =
        some ((wavFiles envAllSuccess.listing).map (transcriptFor envAllSuccess "d")))) :=
  ⟨rfl, rfl, by decide,
    transcribe_chunks_one_record_per_wav envAllSuccess "d" "o.json" rfl rfl (by decide)⟩

/-- C4: a timed-out request yields a record with empty text, the measured
duration and error "timeout", the batch continues, and the manifest is
still written with one record per file. -/
theorem transcribe_chunks_timeout_record (env : TranscribeEnv)
    (chunks_dir output_json f : String)
    (hdir : env.dirExists = true) (hw : env.writeOK = true)
    (hnet : ∀ g ∈ wavFiles env.listing,
      (env.net (joinPath chunks_dir g)).isUnexpected = false)
    (hf : f ∈ wavFiles env.listing)
    (ht : env.net (joinPath chunks_dir f) = .timeout) :
    ∃ recs, (transcribe_chunks env chunks_dir output_json).result = .ok recs ∧
      (transcribe_chunks env chunks_dir output_json).manifest = some recs ∧
      recs.length = (wavFiles env.listing).length ∧
      recs[(wavFiles env.listing).indexOf f]? =
        some { file := joinPath chunks_dir f, text := "",
               duration_ms := env.durationOf (joinPath chunks_dir f),
               error := some "timeout" } := by
  have hok := transcribeAll_ok env chunks_dir (wavFiles env.listing) hnet
  have hne : wavFiles env.listing ≠ [] := List.ne_nil_of_mem hf
  have hemp' : (wavFiles env.listing).isEmpty = false := by
    simp [List.isEmpty_iff, hne]
  refine ⟨(wavFiles env.listing).map (transcriptFor env chunks_dir), ?_, ?_, by simp, ?_⟩
  · simp [transcribe_chunks, hdir, hemp', hok, hw]
  · simp [transcribe_chunks, hdir, hemp', hok, hw]
  · have hlt : (wavFiles env.listing).indexOf f < (wavFiles env.listing).length :=
      List.indexOf_lt_length.mpr hf
    rw [List.getElem?_map, List.getElem?_eq_getElem hlt, List.getElem_indexOf hlt]
    simp [transcriptFor, ht]

/-- Witness for C4: one file whose request times out. -/
theorem transcribe_chunks_timeout_record_witness :
    envOneTimeout.dirExists = true ∧
    envOneTimeout.writeOK = true ∧
    (∀ g ∈ wavFiles envOneTimeout.listing,
      (envOneTimeout.net (joinPath "d" g)).isUnexpected = false) ∧
    "a.wav" ∈ wavFiles envOneTimeout.listing ∧
    envOneTimeout.net (joinPath "d" "a.wav") = NetOutcome.timeout ∧
    (∃ recs, (transcribe_chunks envOneTimeout "d" "o.json").result = .ok recs ∧
      (transcribe_chunks envOneTimeout "d" "o.json").manifest = some recs ∧
      recs.length = (wavFiles envOneTimeout.listing).length ∧
      recs[(wavFiles envOneTimeout.listing).indexOf "a.wav"]? =
        some { file := joinPath "d" "a.wav", text := "",
               duration_ms := envOneTimeout.durationOf (joinPath "d" "a.wav"),
               error := some "timeout" }) :=
  ⟨rfl, rfl, by decide, by decide, rfl,
    transcribe_chunks_timeout_record envOneTimeout "d" "o.json" "a.wav"
      rfl rfl (by decide) (by decide) rfl⟩

/-- C5: the manifest is only ever written after every file has been
processed cleanly (whenever a manifest is written, it is the complete
per-file record list and the call returned it); and when any file hits a
non-network failure, `transcribe_chunks` re-raises it and writes no
manifest at all. -/
theorem transcribe_chunks_nonnetwork_abort :
    (∀ (env : TranscribeEnv) (chunks_dir output_json : String)
        (m : List TranscriptRecord),
      (transcribe_chunks env chunks_dir output_json).manifest = some m →
      (transcribe_chunks env chunks_dir output_json).result = .ok m ∧
      m = (wavFiles env.listing).map (transcriptFor env chunks_dir) ∧
      ∀ f ∈ wavFiles env.listing,
        (env.net (joinPath chunks_dir f)).isUnexpected = false) ∧
    (∀ (env : TranscribeEnv) (chunks_dir output_json : String),
      env.dirExists = true →
      (∃ f ∈ wavFiles env.listing,
        (env.net (joinPath chunks_dir f)).isUnexpected = true) →
      (∃ msg, (transcribe_chunks env chunks_dir output_json).result =
        .error (.unexpected msg)) ∧
      (transcribe_chunks env chunks_dir output_json).manifest = none) := by
  constructor
  · intro env chunks_dir output_json m hm
    cases hd : env.dirExists with
    | false => simp [transcribe_chunks, hd] at hm
    | true =>
      by_cases hemp : (wavFiles env.listing).isEmpty
      · simp [transcribe_chunks, hd, hemp] at hm
      · cases hta : transcribeAll env chunks_dir (wavFiles env.listing) with
        | error e => simp [transcribe_chunks, hd, hemp, hta] at hm
        | ok data =>
          cases hw : env.writeOK with
          | false => simp [transcribe_chunks, hd, hemp, hta, hw] at hm
          | true =>
            have hdm : data = m := by
              simpa [transcribe_chunks, hd, hemp, hta, hw] using hm
            obtain ⟨hmap, hclean⟩ := transcribeAll_ok_inv env chunks_dir _ _ hta
            subst hdm
            exact ⟨by simp [transcribe_chunks, hd, hemp, hta, hw], hmap, hclean⟩
  · intro env chunks_dir output_json hdir hex
    obtain ⟨msg, hmsg⟩ := transcribeAll_error_of_unexpected env chunks_dir _ hex
    obtain ⟨f, hf, _⟩ := hex
    have hne : wavFiles env.listing ≠ [] := List.ne_nil_of_mem hf
    have hemp' : (wavFiles env.listing).isEmpty = false := by
      simp [List.isEmpty_iff, hne]
    exact ⟨⟨msg, by simp [transcribe_chunks, hdir, hemp', hmsg]⟩,
      by simp [transcribe_chunks, hdir, hemp', hmsg]⟩

/-- Witness for C5: a run whose single request succeeds (manifest written,
and it is complete), and a run whose single request hits a non-network
failure (error re-raised, no manifest). -/
theorem transcribe_chunks_nonnetwork_abort_witness :
    (transcribe_chunks envOneSuccess "d" "o.json").manifest =
      some ((wavFiles envOneSuccess.listing).map (transcriptFor envOneSuccess "d")) ∧
    (transcribe_chunks envOneSuccess "d" "o.json").result =
      .ok ((wavFiles envOneSuccess.listing).map (transcriptFor envOneSuccess "d")) ∧
    envOneUnexpected.dirExists = true ∧
    (∃ f ∈ wavFiles envOneUnexpected.listing,
      (envOneUnexpected.net (joinPath "d" f)).isUnexpected = true) ∧
    (∃ msg, (transcribe_chunks envOneUnexpected "d" "o.json").result =
      .error (.unexpected msg)) ∧
    (transcribe_chunks envOneUnexpected "d" "o.json").manifest = none := by
  have hman : (transcribe_chunks envOneSuccess "d" "o.json").manifest =
      some ((wavFiles envOneSuccess.listing).map (transcriptFor envOneSuccess "d")) := rfl
  have hex : ∃ f ∈ wavFiles envOneUnexpected.listing,
      (envOneUnexpected.net (joinPath "d" f)).isUnexpected = true :=
    ⟨"a.wav", by decide, rfl⟩
  exact ⟨hman,
    (transcribe_chunks_nonnetwork_abort.1 _ "d" "o.json" _ hman).1,
    rfl, hex,
    (transcribe_chunks_nonnetwork_abort.2 _ "d" "o.json" rfl hex).1,
    (transcribe_chunks_nonnetwork_abort.2 _ "d" "o.json" rfl hex).2⟩

/-- C6 (counterexample): a directory of exactly 10 segments, chunk_0.wav
through chunk_9.wav as produced by `split_audio`, is a directory of 10 or
more segments on which the lexicographic processing order does NOT differ
from numeric index order: sorting leaves the numeric order unchanged. -/
theorem lexicographic_ten_chunks_counterexample :
    wavFiles ["chunk_0.wav", "chunk_1.wav", "chunk_2.wav", "chunk_3.wav",
      "chunk_4.wav", "chunk_5.wav", "chunk_6.wav", "chunk_7.wav",
      "chunk_8.wav", "chunk_9.wav"] =
    ["chunk_0.wav", "chunk_1.wav", "chunk_2.wav", "chunk_3.wav",
      "chunk_4.wav", "chunk_5.wav", "chunk_6.wav", "chunk_7.wav",
      "chunk_8.wav", "chunk_9.wav"] := by decide

/-- C6 (amended): `transcribe_chunks` processes the `.wav` files in
lexicographically sorted order; for any directory containing both
chunk_10.wav and chunk_2.wav (i.e. 11 or more `split_audio` segments), the
processing order differs from numeric index order: chunk_10.wav is
processed before chunk_2.wav. -/
theorem wavFiles_chunk10_before_chunk2 (listing : List String)
    (h10 : "chunk_10.wav" ∈ listing) (h2 : "chunk_2.wav" ∈ listing) :
    List.Sorted pyLe (wavFiles listing) ∧
    (wavFiles listing).indexOf "chunk_10.wav" <
      (wavFiles listing).indexOf "chunk_2.wav" := by
  have hsorted : List.Sorted pyLe (wavFiles listing) :=
    List.sorted_insertionSort pyLe _
  refine ⟨hsorted, ?_⟩
  have hm10 : "chunk_10.wav" ∈ wavFiles listing := by
    simp only [wavFiles, List.mem_insertionSort]
    exact List.mem_filter.mpr ⟨h10, by decide⟩
  have hm2 : "chunk_2.wav" ∈ wavFiles listing := by
    simp only [wavFiles, List.mem_insertionSort]
    exact List.mem_filter.mpr ⟨h2, by decide⟩
  exact sorted_indexOf_lt hsorted hm10 hm2 (by decide)

/-- Witness for C6 at a directory of 11 segments chunk_0.wav..chunk_10.wav. -/
theorem wavFiles_chunk10_before_chunk2_witness :
    "chunk_10.wav" ∈ elevenChunks ∧
    "chunk_2.wav" ∈ elevenChunks ∧
    (List.Sorted pyLe (wavFiles elevenChunks) ∧
    (wavFiles elevenChunks).indexOf "chunk_10.wav" <
      (wavFiles elevenChunks).indexOf "chunk_2.wav") :=
  ⟨by decide, by decide,
    wavFiles_chunk10_before_chunk2 elevenChunks (by decide) (by decide)⟩

/-- The export loop with no failing export returns one file and one record
per chunk, in detection order. -/
theorem exportChunks_ok (env : SplitEnv) (output_dir : String)
    (hex : ∀ i, env.exportErr i = none) :
    ∀ (cs : List ℕ) (i : ℕ),
      exportChunks env output_dir i cs =
        ((chunkRecords output_dir i cs).map (fun r => r.file),
          chunkRecords output_dir i cs, none)
  | [], _ => rfl
  | c :: cs, i => by
    have ih := exportChunks_ok env output_dir hex cs (i + 1)
    simp [exportChunks, chunkRecords, hex i, ih]

/-- One metadata record per detected chunk. -/
theorem chunkRecords_length (output_dir : String) :
    ∀ (cs : List ℕ) (i : ℕ), (chunkRecords output_dir i cs).length = cs.length
  | [], _ => rfl
  | _ :: cs, i => by simp [chunkRecords, chunkRecords_length output_dir cs (i + 1)]

/-- C8 (counterexample): a successful `split_audio` run that detects zero
segments writes no file at all — in particular no manifest — rather than
the claimed N + 1 = 1 files; it does return the empty list without error. -/
theorem split_audio_zero_chunks_counterexample :
    (split_audio {} "a.mp3" "out" 100 16 25).result = .ok [] ∧
    (split_audio {} "a.mp3" "out" 100 16 25).exported = [] ∧
    (split_audio {} "a.mp3" "out" 100 16 25).manifest = none ∧
    (split_audio {} "a.mp3" "out" 100 16 25).filesWritten = 0 ∧
    (0 : ℕ) ≠ 0 + 1 :=
  ⟨rfl, rfl, rfl, rfl, by norm_num⟩

/-- C8 (amended): a successful run detecting N ≥ 1 segments writes N
segment files plus one JSON manifest listing the N SegmentRecords in
detection order (N + 1 files in total); a successful run detecting N = 0
segments returns the empty list without raising and writes no files. -/
theorem split_audio_files_written (env : SplitEnv) (audio_path output_dir : String)
    (msl sto ks : ℤ)
    (haudio : env.audioExists = true) (hload : env.loadErr = none)
    (hsplit : env.splitErr = none) (hexp : ∀ i, env.exportErr i = none)
    (hw : env.writeOK = true)
    (hmsl : 0 < msl) (hsto : 0 < sto) (hks : 0 ≤ ks) :
    (env.chunks ≠ [] →
      (split_audio env audio_path output_dir msl sto ks).result =
        .ok (chunkRecords output_dir 0 env.chunks) ∧
      (split_audio env audio_path output_dir msl sto ks).exported.length =
        env.chunks.length ∧
      (split_audio env audio_path output_dir msl sto ks).manifest =
        some (chunkRecords output_dir 0 env.chunks) ∧
      (split_audio env audio_path output_dir msl sto ks).filesWritten =
        env.chunks.length + 1) ∧
    (env.chunks = [] →
      (split_audio env audio_path output_dir msl sto ks).result = .ok [] ∧
      (split_audio env audio_path output_dir msl sto ks).filesWritten = 0) := by
  have hparams : ¬(msl ≤ 0 ∨ sto ≤ 0 ∨ ks < 0) := by
    push_neg
    exact ⟨hmsl, hsto, hks⟩
  have hexport := exportChunks_ok env output_dir hexp env.chunks 0
  constructor
  · intro hne
    have hemp : env.chunks.isEmpty = false := by simp [List.isEmpty_iff, hne]
    refine ⟨?_, ?_, ?_, ?_⟩ <;>
      simp [split_audio, haudio, hparams, hload, hsplit, hemp, hexport, hw,
        SplitOutcome.filesWritten, chunkRecords_length]
  · intro hnil
    have hemp : env.chunks.isEmpty = true := by simp [hnil]
    constructor <;>
      simp [split_audio, haudio, hparams, hload, hsplit, hemp,
        SplitOutcome.filesWritten]

/-- Witness for C8 at two detected chunks and at zero detected chunks. -/
theorem split_audio_files_written_witness :
    envTwoChunks.audioExists = true ∧ envTwoChunks.loadErr = none ∧
    envTwoChunks.splitErr = none ∧ (∀ i, envTwoChunks.exportErr i = none) ∧
    envTwoChunks.writeOK = true ∧
    (0 : ℤ) < 100 ∧ (0 : ℤ) < 16 ∧ (0 : ℤ) ≤ 25 ∧
    ((envTwoChunks.chunks ≠ [] →
      (split_audio envTwoChunks "a.mp3" "out" 100 16 25).result =
        .ok (chunkRecords "out" 0 envTwoChunks.chunks) ∧
      (split_audio envTwoChunks "a.mp3" "out" 100 16 25).exported.length =
        envTwoChunks.chunks.length ∧
      (split_audio envTwoChunks "a.mp3" "out" 100 16 25).manifest =
        some (chunkRecords "out" 0 envTwoChunks.chunks) ∧
      (split_audio envTwoChunks "a.mp3" "out" 100 16 25).filesWritten =
        envTwoChunks.chunks.length + 1) ∧
    (envTwoChunks.chunks = [] →
      (split_audio envTwoChunks "a.mp3" "out" 100 16 25).result = .ok [] ∧
      (split_audio envTwoChunks "a.mp3" "out" 100 16 25).filesWritten = 0)) :=
  ⟨rfl, rfl, rfl, fun _ => rfl, rfl, by norm_num, by norm_num, by norm_num,
    split_audio_files_written envTwoChunks "a.mp3" "out" 100 16 25
      rfl rfl rfl (fun _ => rfl) rfl (by norm_num) (by norm_num) (by norm_num)⟩

/-- C9: on any stage failure `process_full_pipeline` stops at that stage,
sets status to "failed", records the triggering message in the error field
and re-raises it; when every invoked stage succeeds, status is "success"
and the result fields are populated. -/
theorem process_full_pipeline_status (env : StageEnv)
    (audio_path output_dir : String) (api_url : Option String) :
    (∀ e, env.splitResult = .error e →
      process_full_pipeline env audio_path output_dir api_url =
        ⟨{ status := "failed", audio_path := audio_path, error := some e },
          some e⟩) ∧
    (∀ chunks u e, env.splitResult = .ok chunks → api_url = some u →
      env.transcribeResult = .error e →
      process_full_pipeline env audio_path output_dir api_url =
        ⟨{ status := "failed", audio_path := audio_path,
           chunks_count := some chunks.length, chunks_dir := some output_dir,
           error := some e }, some e⟩) ∧
    (∀ chunks u ts e, env.splitResult = .ok chunks → api_url = some u →
      env.transcribeResult = .ok ts → env.videoResult = .error e →
      process_full_pipeline env audio_path output_dir api_url =
        ⟨{ status := "failed", audio_path := audio_path,
           chunks_count := some chunks.length, chunks_dir := some output_dir,
           transcriptions_count := some ts.length, error := some e }, some e⟩) ∧
    (∀ chunks e, env.splitResult = .ok chunks → api_url = none →
      env.videoResult = .error e →
      process_full_pipeline env audio_path output_dir api_url =
        ⟨{ status := "failed", audio_path := audio_path,
           chunks_count := some chunks.length, chunks_dir := some output_dir,
           transcriptions_count := some 0, error := some e }, some e⟩) ∧
    (∀ chunks u ts vp, env.splitResult = .ok chunks → api_url = some u →
      env.transcribeResult = .ok ts → env.videoResult = .ok vp →
      process_full_pipeline env audio_path output_dir api_url =
        ⟨{ status := "success", audio_path := audio_path,
           chunks_count := some chunks.length, chunks_dir := some output_dir,
           transcriptions_count := some ts.length, video_path := some vp },
          none⟩) ∧
    (∀ chunks vp, env.splitResult = .ok chunks → api_url = none →
      env.videoResult = .ok vp →
      process_full_pipeline env audio_path output_dir api_url =
        ⟨{ status := "success", audio_path := audio_path,
           chunks_count := some chunks.length, chunks_dir := some output_dir,
           transcriptions_count := some 0, video_path := some vp }, none⟩) := by
  refine ⟨fun e h1 => ?_, fun chunks u e h1 h2 h3 => ?_,
    fun chunks u ts e h1 h2 h3 h4 => ?_, fun chunks e h1 h2 h3 => ?_,
    fun chunks u ts vp h1 h2 h3 h4 => ?_, fun chunks vp h1 h2 h3 => ?_⟩ <;>
    simp [process_full_pipeline, h1]
  · simp [h2, h3]
  · simp [h2, h3, h4]
  · simp [h2, h3]
  · simp [h2, h3, h4]
  · simp [h2, h3]

/-- Witness for C9: a failing segmentation stage, and a fully successful
run. -/
theorem process_full_pipeline_status_witness :
    stagesSplitFail.splitResult = .error "no audio" ∧
    process_full_pipeline stagesSplitFail "a.mp3" "w" (some "u") =
      ⟨{ status := "failed", audio_path := "a.mp3", error := some "no audio" },
        some "no audio"⟩ ∧
    stagesAllOk.splitResult = .ok [{ file := "c0", duration_ms := 100 }] ∧
    stagesAllOk.transcribeResult =
      .ok [{ file := "c0", text := "x", duration_ms := 100 }] ∧
    stagesAllOk.videoResult = .ok "v.mp4" ∧
    process_full_pipeline stagesAllOk "a.mp3" "w" (some "u") =
      ⟨{ status := "success", audio_path := "a.mp3",
         chunks_count := some 1, chunks_dir := some "w",
         transcriptions_count := some 1, video_path := some "v.mp4" }, none⟩ :=
  ⟨rfl,
    (process_full_pipeline_status stagesSplitFail "a.mp3" "w" (some "u")).1
      "no audio" rfl,
    rfl, rfl, rfl,
    (process_full_pipeline_status stagesAllOk "a.mp3" "w" (some "u")).2.2.2.2.1
      [{ file := "c0", duration_ms := 100 }] "u"
      [{ file := "c0", text := "x", duration_ms := 100 }] "v.mp4" rfl rfl rfl rfl⟩

end AyaShare
